import Mathlib

/-
Shallow embedding of the core data pipeline of the country-GDP voronoi
treemap application (src/src/App.js): the visual-encoder functions
getInflationColor, getOpacity, numberConversion, the sector-share
normalizer calcMakeup, the hierarchy builder buildHierarchy, and the
filter step of the top-5 ranking view.  JavaScript numbers that survive
ingestion are modelled as rationals; a cell that may hold null or NaN is
modelled by the JVal type below.
-/

namespace CountryGdp

/-- A JavaScript cell value after CSV ingestion and numeric coercion:
either null, NaN (failed coercion / absent column), or a finite number,
modelled as a rational. -/
inductive JVal where
  | null : JVal
  | nan : JVal
  | num : ℚ → JVal
  deriving DecidableEq

/-- The JavaScript coercion Number(v): null coerces to 0, NaN propagates
(modelled as none), a finite number is itself. -/
def JVal.toNumber : JVal → Option ℚ
  | .null => some 0
  | .nan => none
  | .num q => some q

/-- The JavaScript idiom Number(v) with or-else 0, as used by the d3 sum
and mean accessors and the leaf values: null and NaN both become 0. -/
def JVal.numOr0 : JVal → ℚ
  | .null => 0
  | .nan => 0
  | .num q => q

/-- One parsed CSV row, after the coercions performed in the parse
callback (Year and GDP through Number, Unemployment and Inflation Rate
through the empty-string-to-null guard).  Column names with spaces or
reserved words are renamed: exportPct and importPct stand for the columns
Export (% GDP) and Import (% GDP). -/
structure Row where
  year : JVal
  countryName : String
  continentName : String
  gdp : JVal
  unemployment : JVal
  inflationRate : JVal
  agriculture : JVal
  industry : JVal
  service : JVal
  exportPct : JVal
  importPct : JVal
  gdpPerCapita : JVal
  education : JVal
  health : JVal
  deriving DecidableEq

/-- A CSS color as produced by the encoder: either a hex literal string
or an rgb(r, g, b) triple whose channels are the exact numbers that the
code interpolates into the rgb template string. -/
inductive Color where
  | hex : String → Color
  | rgb : ℚ → ℚ → ℚ → Color
  deriving DecidableEq

/-- getInflationColor from src/src/App.js lines 31-40.  null, undefined
and NaN inputs are all modelled by none and yield white; a negative rate
yields the red-weighted triple, a non-negative rate the green-weighted
triple, with intensity min of the absolute rate times 20 and 255. -/
def getInflationColor : Option ℚ → Color
  | none => .hex "#FFFFFF"
  | some inflationRate =>
    if inflationRate < 0 then
      let intensity := min (|inflationRate| * 20) 255
      .rgb 255 (255 - intensity) (255 - intensity)
    else
      let intensity := min (inflationRate * 20) 255
      .rgb (255 - intensity) 255 (255 - intensity)

/-- getOpacity from src/src/App.js lines 42-53.  null, undefined and NaN
are modelled by none and yield the 0.1 fallback; otherwise the rate is
clamped to the BASE..MAX band and linearly interpolated between
BASE_OPACITY and MAX_OPACITY. -/
def getOpacity : Option ℚ → ℚ
  | none => 1/10
  | some unemployment =>
    let BASE : ℚ := 4
    let MAX : ℚ := 15
    let BASE_OPACITY : ℚ := 9/10
    let MAX_OPACITY : ℚ := 1/10
    let opacity := max BASE (min MAX unemployment)
    BASE_OPACITY + ((opacity - BASE) / (MAX - BASE)) * (MAX_OPACITY - BASE_OPACITY)

/-- The five raw sector percentages of a record, in object insertion
order, each coerced through Number(v) with or-else 0 exactly as in
calcMakeup. -/
def sectorParts (record : Row) : List (String × ℚ) :=
  [("Agriculture (% GDP)", record.agriculture.numOr0),
   ("Industry (% GDP)", record.industry.numOr0),
   ("Service (% GDP)", record.service.numOr0),
   ("Export (% GDP)", record.exportPct.numOr0),
   ("Import (% GDP)", record.importPct.numOr0)]

/-- calcMakeup from src/src/App.js lines 55-66: if the raw sector sum is
not positive return the empty makeup, otherwise rescale each raw value to
a percentage of the sum. -/
def calcMakeup (record : Row) : List (String × ℚ) :=
  if ((sectorParts record).map Prod.snd).sum ≤ 0 then []
  else (sectorParts record).map
    (fun p => (p.1, p.2 / ((sectorParts record).map Prod.snd).sum * 100))

/-- Two-digit padding for the fractional part of a fixed-point string. -/
def padTwo (n : ℕ) : String :=
  if n < 10 then "0" ++ toString n else toString n

/-- toFixed with two digits on a nonnegative rational: round to the
nearest hundredth, ties toward the larger value, per the ECMAScript
Number.prototype.toFixed specification. -/
def fixedTwoDigits (q : ℚ) : String :=
  let n := (Int.floor (q * 100 + 1/2)).toNat
  toString (n / 100) ++ "." ++ padTwo (n % 100)

/-- toFixed(2) on a rational, the sign split off as in the ECMAScript
specification. -/
def toFixed2Q (q : ℚ) : String :=
  if q < 0 then "-" ++ fixedTwoDigits (-q) else fixedTwoDigits q

/-- toFixed(0) on a rational: round to the nearest integer, ties toward
the larger magnitude after the sign split. -/
def toFixed0Q (q : ℚ) : String :=
  if q < 0 then "-" ++ toString ((Int.floor (-q + 1/2)).toNat)
  else toString ((Int.floor (q + 1/2)).toNat)

/-- Number(v).toFixed(0) on a cell: NaN renders as the string NaN, null
coerces to 0 first. -/
def toFixed0 (v : JVal) : String :=
  match v.toNumber with
  | none => "NaN"
  | some q => toFixed0Q q

/-- Number(v).toFixed(2) on a cell. -/
def toFixed2 (v : JVal) : String :=
  match v.toNumber with
  | none => "NaN"
  | some q => toFixed2Q q

/-- numberConversion from src/src/App.js lines 67-76.  The three guarded
branches return a fixed-point string with an M, B or T suffix; every
other input falls through the if chain and the function returns
undefined, modelled as none. -/
def numberConversion (number : ℚ) : Option String :=
  if 1000000 ≤ number ∧ number ≤ 999999999 then
    some (toFixed2Q (number / 1000000) ++ "M")
  else if 1000000000 ≤ number ∧ number ≤ 999999999999 then
    some (toFixed2Q (number / 1000000000) ++ "B")
  else if 1000000000000 ≤ number ∧ number ≤ 999999999999999 then
    some (toFixed2Q (number / 1000000000000) ++ "T")
  else none

/-- The per-continent cap of the hierarchy builder. -/
def TOP_9 : ℕ := 9

/-- Number(r.GDP) with or-else 0, the accessor used for the aggregate sum
and the leaf and slice values; on rows that passed the gdp filter it
coincides with the plain Number(r.GDP) used by the sort comparator. -/
def gdpNum (r : Row) : ℚ := r.gdp.numOr0

/-- The Number(r.GDP) greater than 0 test of the year filter: NaN fails,
null coerces to 0 and fails. -/
def gdpPos (v : JVal) : Bool :=
  match v.toNumber with
  | some g => decide (0 < g)
  | none => false

/-- The predicate of the first filter step shared by buildHierarchy and
the top-5 view: matching year, truthy country name, positive GDP. -/
def rowFilter (year : ℚ) (r : Row) : Bool :=
  decide (r.year.toNumber = some year) && decide (r.countryName ≠ "") && gdpPos r.gdp

/-- The country sub-filter: an empty selection imposes no restriction. -/
def applyCountryFilter (selectedCountries : List String) (l : List Row) : List Row :=
  if selectedCountries.isEmpty then l
  else l.filter (fun r => selectedCountries.contains r.countryName)

/-- The continent sub-filter: an empty selection imposes no
restriction. -/
def applyContinentFilter (selectedContinents : List String) (l : List Row) : List Row :=
  if selectedContinents.isEmpty then l
  else l.filter (fun r => selectedContinents.contains r.continentName)

/-- Step 1 of buildHierarchy, src/src/App.js lines 79-89: the year, name
and GDP filter followed by the two optional selection filters. -/
def applyFilters (rows : List Row) (year : ℚ)
    (selectedCountries selectedContinents : List String) : List Row :=
  applyContinentFilter selectedContinents
    (applyCountryFilter selectedCountries (rows.filter (rowFilter year)))

/-- The grouping key: the continent name with or-else Unknown, as in both
the d3.group key accessor and the node continent attribute. -/
def contKey (r : Row) : String :=
  if r.continentName = "" then "Unknown" else r.continentName

/-- Append a row to the group of key k, creating the group at the end if
the key is new; this is the insertion behaviour of the d3.group intern
map, whose entries iterate in first-occurrence key order. -/
def addToGroups (k : String) (r : Row) :
    List (String × List Row) → List (String × List Row)
  | [] => [(k, [r])]
  | p :: rest =>
    if p.1 = k then (p.1, p.2 ++ [r]) :: rest
    else p :: addToGroups k r rest

/-- d3.group of the filtered rows by continent key, as an association
list in first-occurrence key order with members in row order. -/
def groupByCont (rows : List Row) : List (String × List Row) :=
  rows.foldl (fun acc r => addToGroups (contKey r) r acc) []

/-- The sort comparator of buildHierarchy and the top-5 view sorts
descending by Number(GDP); JavaScript array sort is stable, which this
insertion sort reproduces: an earlier row precedes a later row of equal
GDP. -/
def sortByGdpDesc (items : List Row) : List Row :=
  List.insertionSort (fun a b => gdpNum b ≤ gdpNum a) items

/-- The synthesized aggregate row pushed for a continent whose sorted
member list extends beyond the top nine: summed GDP, averaged
unemployment and inflation, and no sector columns (undefined cells
coerce to NaN downstream). -/
def othersRow (year : ℚ) (cont : String) (others : List Row) : Row :=
  { year := .num year
    countryName := "Others (" ++ cont ++ ")"
    continentName := cont
    gdp := .num ((others.map gdpNum).sum)
    unemployment := .num ((others.map (fun d => d.unemployment.numOr0)).sum / others.length)
    inflationRate := .num ((others.map (fun d => d.inflationRate.numOr0)).sum / others.length)
    agriculture := .nan
    industry := .nan
    service := .nan
    exportPct := .nan
    importPct := .nan
    gdpPerCapita := .nan
    education := .nan
    health := .nan }

/-- The rows pushed onto picked for one continent entry: the first nine
of the descending sort, followed by the single aggregate row exactly when
members remain beyond the cutoff (src/src/App.js lines 96-114). -/
def pickedForCont (year : ℚ) (cont : String) (items : List Row) : List Row :=
  (sortByGdpDesc items).take TOP_9 ++
    (if ((sortByGdpDesc items).drop TOP_9).isEmpty then []
     else [othersRow year cont ((sortByGdpDesc items).drop TOP_9)])

/-- The full picked list: the per-continent blocks concatenated in group
iteration order. -/
def pickedRows (year : ℚ) (groups : List (String × List Row)) : List Row :=
  (groups.map (fun p => pickedForCont year p.1 p.2)).flatten

/-- The metadata attached to every country object in buildHierarchy,
src/src/App.js lines 116-131, including the gpdpercapita field name typo
of the source. -/
structure CountryMeta where
  name : String
  continent : String
  unemployment : String
  inflation : String
  service : String
  importPct : String
  exportPct : String
  agriculture : String
  industry : String
  gpdpercapita : String
  education : String
  health : String
  deriving DecidableEq

/-- One sector slice child of a subdivided country node. -/
structure SectorSlice where
  name : String
  value : ℚ
  deriving DecidableEq

/-- A child of the World root: either a leaf carrying the GDP value
directly, or a country subdivided into sector slices and carrying no own
value. -/
inductive HNode where
  | leaf : CountryMeta → ℚ → HNode
  | branch : CountryMeta → List SectorSlice → HNode
  deriving DecidableEq

/-- The tree returned by buildHierarchy. -/
structure WorldTree where
  name : String
  children : List HNode
  deriving DecidableEq

/-- The country metadata of one picked row. -/
def metaOf (r : Row) : CountryMeta :=
  { name := r.countryName
    continent := contKey r
    unemployment := toFixed0 r.unemployment
    inflation := toFixed0 r.inflationRate
    service := toFixed0 r.service
    importPct := toFixed0 r.importPct
    exportPct := toFixed0 r.exportPct
    agriculture := toFixed0 r.agriculture
    industry := toFixed0 r.industry
    gpdpercapita := toFixed2 r.gdpPerCapita
    education := toFixed0 r.education
    health := toFixed0 r.health }

/-- The slice candidates of a row: the makeup entries whose percentage
exceeds the 0.0001 threshold (one millionth of the whole, since the
makeup is in percent). -/
def entriesOf (r : Row) : List (String × ℚ) :=
  (calcMakeup r).filter (fun p => decide ((1/10000 : ℚ) < p.2))

/-- The node built from one picked row, src/src/App.js lines 116-151: a
branch of sector slices when slice candidates exist and the name does not
carry the aggregate prefix, otherwise a leaf valued at the GDP. -/
def buildNode (r : Row) : HNode :=
  if !(entriesOf r).isEmpty && !((metaOf r).name.startsWith "Others (") then
    HNode.branch (metaOf r)
      ((entriesOf r).map (fun p => { name := p.1, value := gdpNum r * (p.2 / 100) }))
  else
    HNode.leaf (metaOf r) (gdpNum r)

/-- buildHierarchy from src/src/App.js lines 78-154. -/
def buildHierarchy (rows : List Row) (year : ℚ)
    (selectedCountries selectedContinents : List String) : WorldTree :=
  { name := "World"
    children :=
      (pickedRows year
        (groupByCont (applyFilters rows year selectedCountries selectedContinents))).map
        buildNode }

/-- One entry of the top-5 leaderboard. -/
structure TopCountry where
  name : String
  continent : String
  gdp : ℚ
  deriving DecidableEq

/-- The filter portion of the top5Countries memo, src/src/App.js lines
261-271, written out independently of the buildHierarchy filter exactly
as the source duplicates it. -/
def top5Filter (rows : List Row) (selectedYear : ℚ)
    (selectedCountries selectedContinents : List String) : List Row :=
  applyContinentFilter selectedContinents
    (applyCountryFilter selectedCountries
      (rows.filter (fun r =>
        decide (r.year.toNumber = some selectedYear) && decide (r.countryName ≠ "") && gdpPos r.gdp)))

/-- The full top-5 view: filter, sort descending by GDP, take five, map
to flat summaries. -/
def top5Countries (rows : List Row) (selectedYear : ℚ)
    (selectedCountries selectedContinents : List String) : List TopCountry :=
  ((sortByGdpDesc
      (top5Filter rows selectedYear selectedCountries selectedContinents)).take 5).map
    (fun row => { name := row.countryName, continent := row.continentName, gdp := gdpNum row })

/-- The name attribute of a child node. -/
def nodeName : HNode → String
  | .leaf m _ => m.name
  | .branch m _ => m.name

/-- The continent attribute of a child node. -/
def nodeContinent : HNode → String
  | .leaf m _ => m.continent
  | .branch m _ => m.continent

/-- The total of the value fields a node contributes to the partitioner:
the value of a leaf, the slice-value sum of a branch. -/
def nodeValueSum : HNode → ℚ
  | .leaf _ v => v
  | .branch _ slices => (slices.map SectorSlice.value).sum

/-- Every value field carried below the node is strictly positive. -/
def nodePos : HNode → Prop
  | .leaf _ v => 0 < v
  | .branch _ slices => ∀ s ∈ slices, 0 < s.value

instance : DecidablePred nodePos := by
  intro n
  cases n <;> simp only [nodePos] <;> infer_instance

/-- All channels of an rgb color lie in the 8-bit range; a hex literal is
vacuously valid. -/
def channelsValid : Color → Prop
  | .hex _ => True
  | .rgb r g b => 0 ≤ r ∧ r ≤ 255 ∧ 0 ≤ g ∧ g ≤ 255 ∧ 0 ≤ b ∧ b ≤ 255

/-- A concrete row template for worked examples: year 2000, the given
name, continent and GDP, every other cell NaN. -/
def mkRow (name cont : String) (g : ℚ) : Row :=
  { year := .num 2000, countryName := name, continentName := cont, gdp := .num g,
    unemployment := .nan, inflationRate := .nan,
    agriculture := .nan, industry := .nan, service := .nan,
    exportPct := .nan, importPct := .nan,
    gdpPerCapita := .nan, education := .nan, health := .nan }

/-- A record whose industry share is positive but falls at one part in
one hundred million, far below the slice threshold. -/
def rowA : Row :=
  { mkRow "Alpha" "Asia" 100 with
    agriculture := .num 1, industry := .num (1/100000000),
    service := .num 0, exportPct := .num 0, importPct := .num 0 }

/-- A record whose service share is positive but negligible, used to
exhibit slice mass lost to the threshold filter. -/
def rowB : Row :=
  { mkRow "Beta" "Asia" 200 with
    agriculture := .num 1, industry := .num 0, service := .num (1/100000000),
    exportPct := .num 0, importPct := .num 0 }

/-- A record with a well-behaved sector split of 60 and 40 percent. -/
def rowC : Row :=
  { mkRow "Ceta" "Asia" 50 with
    agriculture := .num 60, industry := .num 40, service := .num 0,
    exportPct := .num 0, importPct := .num 0 }

/-- A record with no sector data at all, which becomes a plain leaf. -/
def rowD : Row := mkRow "Delta" "Asia" 5

/-- A record with a clean sector split of 30, 20 and 50 percent. -/
def rowW : Row :=
  { mkRow "Wye" "Asia" 100 with
    agriculture := .num 30, industry := .num 20, service := .num 50,
    exportPct := .num 0, importPct := .num 0 }

/-- Ten one-continent records with descending GDP, one more than the
top-nine cutoff. -/
def euRows : List Row :=
  [mkRow "A" "Europe" 10, mkRow "B" "Europe" 9, mkRow "C" "Europe" 8,
   mkRow "D" "Europe" 7, mkRow "E" "Europe" 6, mkRow "F" "Europe" 5,
   mkRow "G" "Europe" 4, mkRow "H" "Europe" 3, mkRow "I" "Europe" 2,
   mkRow "J" "Europe" 1]

end CountryGdp

namespace CountryGdp

lemma contKey_ne_empty (r : Row) : contKey r ≠ "" := by
  unfold contKey
  split
  · decide
  · assumption

lemma sortByGdpDesc_perm (items : List Row) : (sortByGdpDesc items).Perm items :=
  List.perm_insertionSort _ items

lemma mem_sortByGdpDesc {items : List Row} {r : Row}
    (h : r ∈ sortByGdpDesc items) : r ∈ items :=
  (sortByGdpDesc_perm items).mem_iff.mp h

lemma sum_map_sortByGdpDesc (items : List Row) (f : Row → ℚ) :
    ((sortByGdpDesc items).map f).sum = (items.map f).sum :=
  ((sortByGdpDesc_perm items).map f).sum_eq

lemma addToGroups_inv {P : Row → Prop} {k : String} {r : Row}
    (hk : k ≠ "") (hr : P r) (hkey : contKey r = k) :
    ∀ acc : List (String × List Row),
      (∀ p ∈ acc, p.1 ≠ "" ∧ ∀ x ∈ p.2, P x ∧ contKey x = p.1) →
      ∀ p ∈ addToGroups k r acc, p.1 ≠ "" ∧ ∀ x ∈ p.2, P x ∧ contKey x = p.1 := by
  intro acc
  induction acc with
  | nil =>
    intro _ p hp
    simp only [addToGroups, List.mem_singleton] at hp
    subst hp
    refine ⟨hk, ?_⟩
    intro x hx
    simp only [List.mem_singleton] at hx
    subst hx
    exact ⟨hr, hkey⟩
  | cons a t ih =>
    intro hacc p hp
    obtain ⟨c, its⟩ := a
    simp only [addToGroups] at hp
    by_cases hak : c = k
    · rw [if_pos hak] at hp
      rcases List.mem_cons.mp hp with h1 | h2
      · subst h1
        refine ⟨(hacc (c, its) (List.mem_cons_self _ t)).1, ?_⟩
        intro x hx
        rcases List.mem_append.mp hx with hx1 | hx2
        · exact (hacc (c, its) (List.mem_cons_self _ t)).2 x hx1
        · simp only [List.mem_singleton] at hx2
          subst hx2
          exact ⟨hr, by rw [hak]; exact hkey⟩
      · exact hacc p (List.mem_cons_of_mem _ h2)
    · rw [if_neg hak] at hp
      rcases List.mem_cons.mp hp with h1 | h2
      · subst h1
        exact hacc (c, its) (List.mem_cons_self _ t)
      · exact ih (fun q hq => hacc q (List.mem_cons_of_mem _ hq)) p h2

lemma groupByCont_inv_aux (P : Row → Prop) :
    ∀ (l : List Row) (acc : List (String × List Row)),
      (∀ r ∈ l, P r) →
      (∀ p ∈ acc, p.1 ≠ "" ∧ ∀ x ∈ p.2, P x ∧ contKey x = p.1) →
      ∀ p ∈ l.foldl (fun a r => addToGroups (contKey r) r a) acc,
        p.1 ≠ "" ∧ ∀ x ∈ p.2, P x ∧ contKey x = p.1 := by
  intro l
  induction l with
  | nil =>
    intro acc _ hacc p hp
    exact hacc p hp
  | cons r t ih =>
    intro acc hl hacc p hp
    simp only [List.foldl_cons] at hp
    exact ih _ (fun x hx => hl x (List.mem_cons_of_mem r hx))
      (addToGroups_inv (contKey_ne_empty r) (hl r (List.mem_cons_self r t)) rfl acc hacc)
      p hp

lemma groupByCont_inv {l : List Row} {p : String × List Row}
    (hp : p ∈ groupByCont l) :
    p.1 ≠ "" ∧ ∀ x ∈ p.2, x ∈ l ∧ contKey x = p.1 :=
  groupByCont_inv_aux (fun r => r ∈ l) l [] (fun _ h => h)
    (fun q hq => absurd hq (List.not_mem_nil q)) p hp

lemma gdpPos_iff (v : JVal) :
    gdpPos v = true ↔ ∃ g : ℚ, v.toNumber = some g ∧ 0 < g := by
  cases v with
  | null => simp [gdpPos, JVal.toNumber]
  | nan => simp [gdpPos, JVal.toNumber]
  | num q => simp [gdpPos, JVal.toNumber]

lemma numOr0_eq_toNumber {v : JVal} {g : ℚ} (h : v.toNumber = some g) :
    v.numOr0 = g := by
  cases v <;> simp_all [JVal.toNumber, JVal.numOr0]

lemma gdpNum_pos_of_rowFilter {year : ℚ} {r : Row}
    (h : rowFilter year r = true) : 0 < gdpNum r := by
  unfold rowFilter at h
  simp only [Bool.and_eq_true] at h
  obtain ⟨g, hg1, hg2⟩ := (gdpPos_iff r.gdp).mp h.2
  rw [gdpNum, numOr0_eq_toNumber hg1]
  exact hg2

lemma mem_applyFilters {rows : List Row} {year : ℚ} {cs ks : List String} {r : Row}
    (h : r ∈ applyFilters rows year cs ks) :
    r ∈ rows ∧ rowFilter year r = true := by
  unfold applyFilters applyContinentFilter applyCountryFilter at h
  by_cases hks : ks.isEmpty = true <;> by_cases hcs : cs.isEmpty = true <;>
    simp only [hks, hcs, if_true, if_false, Bool.false_eq_true, List.mem_filter] at h <;>
    tauto

end CountryGdp

namespace CountryGdp

lemma sum_map_linear (l : List (String × ℚ)) (s : ℚ) :
    (l.map (fun p => p.2 / s * 100)).sum = (l.map Prod.snd).sum / s * 100 := by
  induction l with
  | nil => simp
  | cons a t ih => simp [ih, add_div, add_mul]

lemma sum_map_slice (l : List (String × ℚ)) (g : ℚ) :
    (l.map (fun p => g * (p.2 / 100))).sum = g * ((l.map Prod.snd).sum / 100) := by
  induction l with
  | nil => simp
  | cons a t ih => simp [ih, add_div, mul_add]

lemma filter_sum_no_tiny (l : List (String × ℚ))
    (h : ∀ p ∈ l, p.2 = 0 ∨ 1/10000 < p.2) :
    ((l.filter (fun p => decide ((1/10000 : ℚ) < p.2))).map Prod.snd).sum
      = (l.map Prod.snd).sum := by
  induction l with
  | nil => simp
  | cons a t ih =>
    have ht := ih (fun p hp => h p (List.mem_cons_of_mem a hp))
    rcases h a (List.mem_cons_self a t) with h0 | hgt
    · have hneg : ¬ ((1/10000 : ℚ) < a.2) := by rw [h0]; norm_num
      rw [List.filter_cons, if_neg (by simpa using hneg)]
      simp only [List.map_cons, List.sum_cons, h0, zero_add]
      exact ht
    · rw [List.filter_cons, if_pos (by simpa using hgt)]
      simp only [List.map_cons, List.sum_cons]
      rw [ht]

lemma calcMakeup_snd_sum {r : Row}
    (hpos : 0 < ((sectorParts r).map Prod.snd).sum) :
    ((calcMakeup r).map Prod.snd).sum = 100 := by
  unfold calcMakeup
  rw [if_neg (not_le.mpr hpos), List.map_map]
  have hc : (Prod.snd ∘ fun p : String × ℚ =>
      (p.1, p.2 / ((sectorParts r).map Prod.snd).sum * 100))
      = fun p : String × ℚ => p.2 / ((sectorParts r).map Prod.snd).sum * 100 := rfl
  rw [hc, sum_map_linear, div_self (ne_of_gt hpos), one_mul]

lemma calcMakeup_pos_of_ne_nil {r : Row} (h : calcMakeup r ≠ []) :
    0 < ((sectorParts r).map Prod.snd).sum := by
  by_contra hc
  have hle : ((sectorParts r).map Prod.snd).sum ≤ 0 := not_lt.mp hc
  apply h
  unfold calcMakeup
  rw [if_pos hle]

lemma calcMakeup_othersRow (year : ℚ) (cont : String) (others : List Row) :
    calcMakeup (othersRow year cont others) = [] := by
  simp [calcMakeup, sectorParts, othersRow, JVal.numOr0]

lemma buildNode_othersRow (year : ℚ) (cont : String) (others : List Row) :
    buildNode (othersRow year cont others)
      = HNode.leaf (metaOf (othersRow year cont others)) ((others.map gdpNum).sum) := by
  have h := calcMakeup_othersRow year cont others
  have hg : gdpNum (othersRow year cont others) = (others.map gdpNum).sum := rfl
  simp [buildNode, entriesOf, h, hg]

lemma nodeValueSum_buildNode_no_tiny {r : Row}
    (h : ∀ p ∈ calcMakeup r, p.2 = 0 ∨ 1/10000 < p.2) :
    nodeValueSum (buildNode r) = gdpNum r := by
  unfold buildNode
  split
  case isTrue hcond =>
    have hne : entriesOf r ≠ [] := by
      intro hnil
      rw [Bool.and_eq_true] at hcond
      rw [hnil] at hcond
      simp at hcond
    have hmne : calcMakeup r ≠ [] := by
      intro hnil
      apply hne
      unfold entriesOf
      rw [hnil]
      rfl
    have hpos := calcMakeup_pos_of_ne_nil hmne
    simp only [nodeValueSum, List.map_map]
    have hc : (SectorSlice.value ∘ fun p : String × ℚ =>
        ({ name := p.1, value := gdpNum r * (p.2 / 100) } : SectorSlice))
        = fun p : String × ℚ => gdpNum r * (p.2 / 100) := rfl
    rw [hc, sum_map_slice]
    unfold entriesOf
    rw [filter_sum_no_tiny _ h, calcMakeup_snd_sum hpos]
    norm_num
  case isFalse => simp [nodeValueSum]

end CountryGdp

namespace CountryGdp

lemma take_sorted_eq_of_drop_nil {items : List Row}
    (hd : (sortByGdpDesc items).drop TOP_9 = []) :
    (sortByGdpDesc items).take TOP_9 = sortByGdpDesc items := by
  have h2 := List.take_append_drop TOP_9 (sortByGdpDesc items)
  rw [hd, List.append_nil] at h2
  exact h2

lemma pickedForCont_sum {year : ℚ} {cont : String} {items : List Row}
    (hshares : ∀ x ∈ items, ∀ p ∈ calcMakeup x, p.2 = 0 ∨ 1/10000 < p.2) :
    ((pickedForCont year cont items).map (fun r => nodeValueSum (buildNode r))).sum
      = (items.map gdpNum).sum := by
  unfold pickedForCont
  rw [List.map_append, List.sum_append]
  have htop : ∀ x ∈ (sortByGdpDesc items).take TOP_9,
      (fun r => nodeValueSum (buildNode r)) x = gdpNum x := fun x hx =>
    nodeValueSum_buildNode_no_tiny (hshares x (mem_sortByGdpDesc (List.take_subset _ _ hx)))
  rw [List.map_congr_left htop]
  have hsplit : (((sortByGdpDesc items).take TOP_9).map gdpNum).sum
      + (((sortByGdpDesc items).drop TOP_9).map gdpNum).sum = (items.map gdpNum).sum := by
    rw [← List.sum_append, ← List.map_append, List.take_append_drop,
      sum_map_sortByGdpDesc]
  by_cases he : ((sortByGdpDesc items).drop TOP_9).isEmpty = true
  · rw [if_pos he]
    have hd : (sortByGdpDesc items).drop TOP_9 = [] := List.isEmpty_iff.mp he
    rw [hd] at hsplit
    simpa using hsplit
  · rw [if_neg he]
    simp only [List.map_cons, List.map_nil, List.sum_cons, List.sum_nil, add_zero]
    rw [buildNode_othersRow]
    simp only [nodeValueSum]
    exact hsplit

lemma buildNode_mem_children {rows : List Row} {year : ℚ} {cs ks : List String}
    {cont : String} {items : List Row} {r : Row}
    (hmem : (cont, items) ∈ groupByCont (applyFilters rows year cs ks))
    (hr : r ∈ pickedForCont year cont items) :
    buildNode r ∈ (buildHierarchy rows year cs ks).children := by
  simp only [buildHierarchy, pickedRows]
  exact List.mem_map.mpr ⟨r, List.mem_flatten.mpr ⟨pickedForCont year cont items,
    List.mem_map.mpr ⟨(cont, items), hmem, rfl⟩, hr⟩, rfl⟩

lemma nodeContinent_buildNode (r : Row) : nodeContinent (buildNode r) = contKey r := by
  unfold buildNode
  split <;> simp [nodeContinent, metaOf]

lemma nodePos_buildNode {r : Row} (h : 0 < gdpNum r) : nodePos (buildNode r) := by
  unfold buildNode
  split
  · simp only [nodePos]
    intro s hs
    obtain ⟨p, hp, rfl⟩ := List.mem_map.mp hs
    unfold entriesOf at hp
    have hpgt : (1/10000 : ℚ) < p.2 := by
      have := (List.mem_filter.mp hp).2
      simpa using this
    have hp2 : (0:ℚ) < p.2 := lt_trans (by norm_num) hpgt
    exact mul_pos h (div_pos hp2 (by norm_num))
  · simp only [nodePos]
    exact h

lemma pickedForCont_cases {year : ℚ} {cont : String} {items : List Row} {r : Row}
    (hr : r ∈ pickedForCont year cont items) :
    r ∈ sortByGdpDesc items ∨
      (((sortByGdpDesc items).drop TOP_9).isEmpty = false ∧
        r = othersRow year cont ((sortByGdpDesc items).drop TOP_9)) := by
  unfold pickedForCont at hr
  rcases List.mem_append.mp hr with htake | hother
  · exact Or.inl (List.take_subset _ _ htake)
  · by_cases he : ((sortByGdpDesc items).drop TOP_9).isEmpty = true
    · rw [if_pos he] at hother
      exact absurd hother (List.not_mem_nil r)
    · rw [if_neg he] at hother
      refine Or.inr ⟨Bool.not_eq_true _ |>.mp he, ?_⟩
      simpa using hother

end CountryGdp

namespace CountryGdp

lemma rowFilter_eq_true_iff (year : ℚ) (r : Row) :
    rowFilter year r = true ↔
      (r.year.toNumber = some year ∧ r.countryName ≠ "" ∧
       ∃ g : ℚ, r.gdp.toNumber = some g ∧ 0 < g) := by
  unfold rowFilter
  simp [Bool.and_eq_true, decide_eq_true_eq, gdpPos_iff, and_assoc]

lemma mem_applyFilters_iff (rows : List Row) (year : ℚ) (cs ks : List String) (r : Row) :
    r ∈ applyFilters rows year cs ks ↔
      (r ∈ rows ∧ r.year.toNumber = some year ∧ r.countryName ≠ "" ∧
       (∃ g : ℚ, r.gdp.toNumber = some g ∧ 0 < g) ∧
       (cs = [] ∨ r.countryName ∈ cs) ∧ (ks = [] ∨ r.continentName ∈ ks)) := by
  unfold applyFilters applyContinentFilter applyCountryFilter
  by_cases hks : ks.isEmpty = true
  · have hks' : ks = [] := List.isEmpty_iff.mp hks
    by_cases hcs : cs.isEmpty = true
    · have hcs' : cs = [] := List.isEmpty_iff.mp hcs
      rw [if_pos hks, if_pos hcs]
      simp [hks', hcs', List.mem_filter, rowFilter_eq_true_iff, and_assoc]
    · have hcs' : ¬ cs = [] := fun h => hcs (List.isEmpty_iff.mpr h)
      rw [if_pos hks, if_neg hcs]
      simp [hks', hcs', List.mem_filter, rowFilter_eq_true_iff, and_assoc]
      tauto
  · have hks' : ¬ ks = [] := fun h => hks (List.isEmpty_iff.mpr h)
    by_cases hcs : cs.isEmpty = true
    · have hcs' : cs = [] := List.isEmpty_iff.mp hcs
      rw [if_neg hks, if_pos hcs]
      simp [hks', hcs', List.mem_filter, rowFilter_eq_true_iff, and_assoc]
      tauto
    · have hcs' : ¬ cs = [] := fun h => hcs (List.isEmpty_iff.mpr h)
      rw [if_neg hks, if_neg hcs]
      simp [hks', hcs', List.mem_filter, rowFilter_eq_true_iff, and_assoc]
      tauto

end CountryGdp

namespace CountryGdp

lemma applyFilters_rowA : applyFilters [rowA] 2000 [] [] = [rowA] := by
  norm_num +decide [applyFilters, applyCountryFilter, applyContinentFilter, rowFilter,
    rowA, mkRow, JVal.toNumber, gdpPos, List.filter]

lemma groupByCont_rowA : groupByCont [rowA] = [("Asia", [rowA])] := by
  norm_num +decide [groupByCont, addToGroups, contKey, rowA, mkRow]

lemma pickedForCont_rowA : pickedForCont 2000 "Asia" [rowA] = [rowA] := by
  simp [pickedForCont, sortByGdpDesc, TOP_9]

lemma children_rowA : (buildHierarchy [rowA] 2000 [] []).children = [buildNode rowA] := by
  simp [buildHierarchy, pickedRows, applyFilters_rowA, groupByCont_rowA, pickedForCont_rowA]

lemma nodeValueSum_rowA : nodeValueSum (buildNode rowA) = 10000000000/100000001 := by
  norm_num +decide [buildNode, entriesOf, calcMakeup, sectorParts, rowA, mkRow,
    JVal.numOr0, List.filter, nodeValueSum, gdpNum]

lemma applyFilters_rowD : applyFilters [rowD] 2000 [] [] = [rowD] := by
  norm_num +decide [applyFilters, applyCountryFilter, applyContinentFilter, rowFilter,
    rowD, mkRow, JVal.toNumber, gdpPos, List.filter]

lemma groupByCont_rowD : groupByCont [rowD] = [("Asia", [rowD])] := by
  norm_num +decide [groupByCont, addToGroups, contKey, rowD, mkRow]

lemma pickedForCont_rowD : pickedForCont 2000 "Asia" [rowD] = [rowD] := by
  simp [pickedForCont, sortByGdpDesc, TOP_9]

lemma buildNode_rowD : buildNode rowD = HNode.leaf (metaOf rowD) 5 := by
  norm_num +decide [buildNode, entriesOf, calcMakeup, sectorParts, rowD, mkRow,
    JVal.numOr0, List.filter, gdpNum]

lemma children_rowD : (buildHierarchy [rowD] 2000 [] []).children = [buildNode rowD] := by
  simp [buildHierarchy, pickedRows, applyFilters_rowD, groupByCont_rowD, pickedForCont_rowD]

lemma mem_group_rowD : ("Asia", [rowD]) ∈ groupByCont (applyFilters [rowD] 2000 [] []) := by
  rw [applyFilters_rowD, groupByCont_rowD]
  exact List.mem_singleton.mpr rfl

lemma applyFilters_euRows : applyFilters euRows 2000 [] [] = euRows := by
  norm_num +decide [applyFilters, applyCountryFilter, applyContinentFilter, rowFilter,
    euRows, mkRow, JVal.toNumber, gdpPos, List.filter]

lemma groupByCont_euRows : groupByCont euRows = [("Europe", euRows)] := by
  norm_num +decide [groupByCont, addToGroups, contKey, euRows, mkRow]

lemma mem_group_euRows : ("Europe", euRows) ∈ groupByCont (applyFilters euRows 2000 [] []) := by
  rw [applyFilters_euRows, groupByCont_euRows]
  exact List.mem_singleton.mpr rfl

end CountryGdp

namespace CountryGdp

/-- Claim C1 counterexample: with a single filtered record whose industry
share is positive but at one part in one hundred million, the slice
threshold drops that sector, so the node-value sum of the only continent
falls strictly short of the GDP sum of its filtered records. -/
theorem buildHierarchy_continent_sum_cex :
    applyFilters [rowA] 2000 [] [] = [rowA] ∧
    groupByCont (applyFilters [rowA] 2000 [] []) = [("Asia", [rowA])] ∧
    ((buildHierarchy [rowA] 2000 [] []).children.map nodeValueSum).sum
      ≠ ([rowA].map gdpNum).sum := by
  refine ⟨applyFilters_rowA, ?_, ?_⟩
  · rw [applyFilters_rowA]
    exact groupByCont_rowA
  · rw [children_rowA]
    simp only [List.map_cons, List.map_nil, List.sum_cons, List.sum_nil, add_zero,
      nodeValueSum_rowA]
    norm_num [rowA, mkRow, gdpNum, JVal.numOr0]

/-- Claim C1 (amended): for every continent group of the filtered set, if
every normalized sector share of every member is either zero or strictly
above the threshold of one ten-thousandth of a percentage point, then the
sum of the leaf and slice values of the nodes built for that continent,
including the aggregate remainder node, equals the GDP sum of the
filtered records of that continent; a positive share at or below the
threshold loses its slice mass instead. -/
theorem buildHierarchy_continent_sum (rows : List Row) (year : ℚ)
    (cs ks : List String) (cont : String) (items : List Row)
    (hmem : (cont, items) ∈ groupByCont (applyFilters rows year cs ks))
    (hshares : ∀ x ∈ items, ∀ p ∈ calcMakeup x, p.2 = 0 ∨ 1/10000 < p.2) :
    ((pickedForCont year cont items).map (fun r => nodeValueSum (buildNode r))).sum
        = (items.map gdpNum).sum ∧
      ∀ r ∈ pickedForCont year cont items,
        buildNode r ∈ (buildHierarchy rows year cs ks).children := by
  exact ⟨pickedForCont_sum hshares, fun r hr => buildNode_mem_children hmem hr⟩

/-- Claim C1 witness at a record with shares of 30, 20 and 50 percent. -/
theorem buildHierarchy_continent_sum_witness :
    ((pickedForCont 2000 "Asia" [rowW]).map (fun r => nodeValueSum (buildNode r))).sum
      = ([rowW].map gdpNum).sum :=
  (buildHierarchy_continent_sum [rowW] 2000 [] [] "Asia" [rowW]
    (by
      have h1 : applyFilters [rowW] 2000 [] [] = [rowW] := by
        norm_num +decide [applyFilters, applyCountryFilter, applyContinentFilter,
          rowFilter, rowW, mkRow, JVal.toNumber, gdpPos, List.filter]
      have h2 : groupByCont [rowW] = [("Asia", [rowW])] := by
        norm_num +decide [groupByCont, addToGroups, contKey, rowW, mkRow]
      rw [h1, h2]
      exact List.mem_singleton.mpr rfl)
    (by
      intro x hx p hp
      rw [List.mem_singleton] at hx
      subst hx
      have hm : calcMakeup rowW =
          [("Agriculture (% GDP)", 30), ("Industry (% GDP)", 20),
           ("Service (% GDP)", 50), ("Export (% GDP)", 0), ("Import (% GDP)", 0)] := by
        norm_num [calcMakeup, sectorParts, rowW, mkRow, JVal.numOr0]
      rw [hm] at hp
      simp only [List.mem_cons, List.not_mem_nil, or_false] at hp
      rcases hp with rfl | rfl | rfl | rfl | rfl <;> norm_num)).1

/-- Claim C2 counterexample: a record with positive share sum whose
service sector share is at one part in one hundred million; the emitted
slice values do not sum back to the GDP of the record. -/
theorem calcMakeup_slice_sum_cex :
    0 < ((sectorParts rowB).map Prod.snd).sum ∧
    nodeValueSum (buildNode rowB) ≠ gdpNum rowB := by
  constructor
  · norm_num [sectorParts, rowB, mkRow, JVal.numOr0]
  · have h5 : nodeValueSum (buildNode rowB) = 20000000000/100000001 := by
      norm_num +decide [buildNode, entriesOf, calcMakeup, sectorParts, rowB, mkRow,
        JVal.numOr0, List.filter, nodeValueSum, gdpNum]
    rw [h5]
    norm_num [gdpNum, rowB, mkRow, JVal.numOr0]

/-- Claim C2 (amended): for every record with positive raw sector sum the
normalized shares sum to exactly 100 percent; a makeup entry is emitted as
a slice candidate exactly when its share exceeds one ten-thousandth of a
percentage point, so a share at or below that relative threshold of one
in a million is omitted; and when every share is zero or above the
threshold the emitted slice values sum back to exactly the GDP of the
record, as does the node built from it. -/
theorem calcMakeup_normalized (r : Row)
    (hpos : 0 < ((sectorParts r).map Prod.snd).sum) :
    ((calcMakeup r).map Prod.snd).sum = 100 ∧
    (∀ p ∈ calcMakeup r, (p ∈ entriesOf r ↔ 1/10000 < p.2)) ∧
    ((∀ p ∈ calcMakeup r, p.2 = 0 ∨ 1/10000 < p.2) →
      ((entriesOf r).map (fun p => gdpNum r * (p.2 / 100))).sum = gdpNum r ∧
      nodeValueSum (buildNode r) = gdpNum r) := by
  refine ⟨calcMakeup_snd_sum hpos, ?_, ?_⟩
  · intro p hp
    unfold entriesOf
    rw [List.mem_filter]
    simp [hp]
  · intro hnt
    refine ⟨?_, nodeValueSum_buildNode_no_tiny hnt⟩
    rw [sum_map_slice]
    unfold entriesOf
    rw [filter_sum_no_tiny _ hnt, calcMakeup_snd_sum hpos]
    norm_num

/-- Claim C2 witness at a record with shares of 60 and 40 percent. -/
theorem calcMakeup_normalized_witness :
    ((calcMakeup rowC).map Prod.snd).sum = 100 :=
  (calcMakeup_normalized rowC
    (by norm_num [sectorParts, rowC, mkRow, JVal.numOr0])).1

end CountryGdp

namespace CountryGdp

/-- Claim C3: for every continent group of the filtered set with strictly
more than nine members, the picked list is the first nine of the
descending sort followed by exactly one synthesized aggregate row; the
node built from that row is labeled Others with the continent name in
parentheses and its value is the GDP sum of the records ranked below the
top nine; a group with nine or fewer members yields no aggregate row. -/
theorem buildHierarchy_others_aggregate (rows : List Row) (year : ℚ)
    (cs ks : List String) (cont : String) (items : List Row)
    (hmem : (cont, items) ∈ groupByCont (applyFilters rows year cs ks)) :
    (TOP_9 < items.length →
      pickedForCont year cont items
        = (sortByGdpDesc items).take TOP_9
            ++ [othersRow year cont ((sortByGdpDesc items).drop TOP_9)] ∧
      nodeName (buildNode (othersRow year cont ((sortByGdpDesc items).drop TOP_9)))
        = "Others (" ++ cont ++ ")" ∧
      nodeValueSum (buildNode (othersRow year cont ((sortByGdpDesc items).drop TOP_9)))
        = (((sortByGdpDesc items).drop TOP_9).map gdpNum).sum) ∧
    (items.length ≤ TOP_9 → pickedForCont year cont items = sortByGdpDesc items) := by
  constructor
  · intro hgt
    have hlen : TOP_9 < (sortByGdpDesc items).length := by
      rw [(sortByGdpDesc_perm items).length_eq]
      exact hgt
    have hdne : (sortByGdpDesc items).drop TOP_9 ≠ [] := by
      intro hc
      have hlc := congrArg List.length hc
      rw [List.length_drop] at hlc
      simp only [List.length_nil] at hlc
      omega
    have hne : ¬ ((sortByGdpDesc items).drop TOP_9).isEmpty = true :=
      fun h => hdne (List.isEmpty_iff.mp h)
    refine ⟨?_, ?_, ?_⟩
    · unfold pickedForCont
      rw [if_neg hne]
    · rw [buildNode_othersRow]
      rfl
    · rw [buildNode_othersRow]
      rfl
  · intro hle
    have hlen : (sortByGdpDesc items).length ≤ TOP_9 := by
      rw [(sortByGdpDesc_perm items).length_eq]
      exact hle
    have hd : (sortByGdpDesc items).drop TOP_9 = [] := List.drop_eq_nil_of_le hlen
    unfold pickedForCont
    rw [hd]
    simp [List.take_of_length_le hlen]

/-- Claim C3 witness: ten one-continent records; the aggregate row holds
the single bottom record and its value is that GDP sum. -/
theorem buildHierarchy_others_aggregate_witness :
    pickedForCont 2000 "Europe" euRows
        = (sortByGdpDesc euRows).take TOP_9
            ++ [othersRow 2000 "Europe" ((sortByGdpDesc euRows).drop TOP_9)] ∧
    nodeName (buildNode (othersRow 2000 "Europe" ((sortByGdpDesc euRows).drop TOP_9)))
        = "Others (" ++ "Europe" ++ ")" ∧
    nodeValueSum (buildNode (othersRow 2000 "Europe" ((sortByGdpDesc euRows).drop TOP_9)))
        = (((sortByGdpDesc euRows).drop TOP_9).map gdpNum).sum :=
  (buildHierarchy_others_aggregate euRows 2000 [] [] "Europe" euRows
    mem_group_euRows).1 (by simp [euRows, TOP_9])

/-- Claim C4 counterexample: with one filtered record the single child of
the World root is the country node itself, labeled with the country name
and carrying the GDP value; it is not a valueless continent-group node
and no continent layer sits between it and the root. -/
theorem buildHierarchy_no_continent_layer_cex :
    (buildHierarchy [rowD] 2000 [] []).children = [HNode.leaf (metaOf rowD) 5] ∧
    nodeName (HNode.leaf (metaOf rowD) 5) = "Delta" ∧
    nodeContinent (HNode.leaf (metaOf rowD) 5) = "Asia" ∧
    ("Delta" : String) ≠ "Asia" := by
  refine ⟨?_, ?_, ?_, by decide⟩
  · rw [children_rowD, buildNode_rowD]
  · rfl
  · rfl

/-- Claim C4 (amended): the tree root is labeled World and its children
are the country and aggregate nodes of all continents directly, in group
iteration order; each such node records its continent as a data attribute
equal to its grouping key, with no intermediate continent-group layer. -/
theorem buildHierarchy_world_flat (rows : List Row) (year : ℚ) (cs ks : List String) :
    (buildHierarchy rows year cs ks).name = "World" ∧
    (buildHierarchy rows year cs ks).children
      = (pickedRows year (groupByCont (applyFilters rows year cs ks))).map buildNode ∧
    (∀ cont items, (cont, items) ∈ groupByCont (applyFilters rows year cs ks) →
      ∀ r ∈ pickedForCont year cont items,
        nodeContinent (buildNode r) = cont ∧
        buildNode r ∈ (buildHierarchy rows year cs ks).children) := by
  refine ⟨rfl, rfl, ?_⟩
  intro cont items hmem r hr
  obtain ⟨hkey, hitems⟩ := groupByCont_inv hmem
  have hkey' : cont ≠ "" := hkey
  refine ⟨?_, buildNode_mem_children hmem hr⟩
  rw [nodeContinent_buildNode]
  rcases pickedForCont_cases hr with hin | ⟨_, rfl⟩
  · exact (hitems r (mem_sortByGdpDesc hin)).2
  · simp [contKey, othersRow, hkey']

/-- Claim C4 witness: the node of the concrete record carries continent
Asia and sits directly among the children of the root. -/
theorem buildHierarchy_world_flat_witness :
    nodeContinent (buildNode rowD) = "Asia" ∧
    buildNode rowD ∈ (buildHierarchy [rowD] 2000 [] []).children :=
  (buildHierarchy_world_flat [rowD] 2000 [] []).2.2 "Asia" [rowD] mem_group_rowD rowD
    (by
      rw [pickedForCont_rowD]
      exact List.mem_singleton.mpr rfl)

end CountryGdp

namespace CountryGdp

/-- Claim C5 counterexample: the function returns no string at all, not a
fallback, for 500, for 999999999.5 (inside the claimed million bucket but
outside the closed integer-bounded range of the code), for 999999999999.5
(inside the claimed billion bucket), and for 10 to the 15th (at or above
the claimed trillion bucket). -/
theorem numberConversion_fallback_cex :
    numberConversion 500 = none ∧
    numberConversion (1999999999/2) = none ∧
    numberConversion (1999999999999/2) = none ∧
    numberConversion 1000000000000000 = none := by
  refine ⟨?_, ?_, ?_, ?_⟩ <;>
    · unfold numberConversion
      rw [if_neg (by rintro ⟨h1, h2⟩ <;> norm_num at h1 h2),
        if_neg (by rintro ⟨h1, h2⟩ <;> norm_num at h1 h2),
        if_neg (by rintro ⟨h1, h2⟩ <;> norm_num at h1 h2)]

/-- Claim C5 (amended): the branches hold exactly on the closed ranges of
the code, from one million to 999999999 for the M form, from one billion
to 999999999999 for the B form, and from one trillion to 999999999999999
for the T form, each rendered with two decimal digits; on every other
input the function returns undefined rather than an N/A fallback string:
below one million, above the top bound, and on all of both gap intervals
between consecutive ranges, and a string is returned exactly when the
input lies in one of the three closed ranges; in particular
2500000000000 renders as 2.50T and 3000000000 as 3.00B while 500 yields
none. -/
theorem numberConversion_thresholds :
    (∀ n : ℚ,
      (n < 1000000 → numberConversion n = none) ∧
      (1000000 ≤ n → n ≤ 999999999 →
        numberConversion n = some (toFixed2Q (n / 1000000) ++ "M")) ∧
      (999999999 < n → n < 1000000000 → numberConversion n = none) ∧
      (1000000000 ≤ n → n ≤ 999999999999 →
        numberConversion n = some (toFixed2Q (n / 1000000000) ++ "B")) ∧
      (999999999999 < n → n < 1000000000000 → numberConversion n = none) ∧
      (1000000000000 ≤ n → n ≤ 999999999999999 →
        numberConversion n = some (toFixed2Q (n / 1000000000000) ++ "T")) ∧
      (999999999999999 < n → numberConversion n = none) ∧
      ((numberConversion n).isSome = true ↔
        ((1000000 ≤ n ∧ n ≤ 999999999) ∨ (1000000000 ≤ n ∧ n ≤ 999999999999) ∨
         (1000000000000 ≤ n ∧ n ≤ 999999999999999)))) ∧
    numberConversion 2500000000000 = some "2.50T" ∧
    numberConversion 3000000000 = some "3.00B" ∧
    numberConversion 500 = none := by
  constructor
  · intro n
    refine ⟨?_, ?_, ?_, ?_, ?_, ?_, ?_, ?_⟩
    · intro h
      unfold numberConversion
      rw [if_neg (by rintro ⟨h1, _⟩; linarith), if_neg (by rintro ⟨h1, _⟩; linarith),
        if_neg (by rintro ⟨h1, _⟩; linarith)]
    · intro h1 h2
      unfold numberConversion
      rw [if_pos ⟨h1, h2⟩]
    · intro h1 h2
      unfold numberConversion
      rw [if_neg (by rintro ⟨_, hb⟩; linarith), if_neg (by rintro ⟨ha, _⟩; linarith),
        if_neg (by rintro ⟨ha, _⟩; linarith)]
    · intro h1 h2
      unfold numberConversion
      rw [if_neg (by rintro ⟨_, hb⟩; linarith), if_pos ⟨h1, h2⟩]
    · intro h1 h2
      unfold numberConversion
      rw [if_neg (by rintro ⟨_, hb⟩; linarith), if_neg (by rintro ⟨_, hb⟩; linarith),
        if_neg (by rintro ⟨ha, _⟩; linarith)]
    · intro h1 h2
      unfold numberConversion
      rw [if_neg (by rintro ⟨_, hb⟩; linarith), if_neg (by rintro ⟨_, hb⟩; linarith),
        if_pos ⟨h1, h2⟩]
    · intro h
      unfold numberConversion
      rw [if_neg (by rintro ⟨_, hb⟩; linarith), if_neg (by rintro ⟨_, hb⟩; linarith),
        if_neg (by rintro ⟨_, hb⟩; linarith)]
    · unfold numberConversion
      split_ifs with ha hb hc <;> simp only [Option.isSome_some, Option.isSome_none] <;>
        tauto
  · refine ⟨?_, ?_, ?_⟩
    · have h : (2500000000000 : ℚ) / 1000000000000 = 5/2 := by norm_num
      unfold numberConversion
      rw [if_neg (by rintro ⟨_, hb⟩; norm_num at hb),
        if_neg (by rintro ⟨_, hb⟩; norm_num at hb), if_pos (by norm_num), h]
      norm_num [toFixed2Q, fixedTwoDigits, padTwo]
      decide
    · have h : (3000000000 : ℚ) / 1000000000 = 3 := by norm_num
      unfold numberConversion
      rw [if_neg (by rintro ⟨_, hb⟩; norm_num at hb), if_pos (by norm_num), h]
      norm_num [toFixed2Q, fixedTwoDigits, padTwo]
      decide
    · unfold numberConversion
      rw [if_neg (by rintro ⟨h1, _⟩; norm_num at h1),
        if_neg (by rintro ⟨h1, _⟩; norm_num at h1),
        if_neg (by rintro ⟨h1, _⟩; norm_num at h1)]

/-- Claim C5 witness: the trillion branch applied at 2500000000000. -/
theorem numberConversion_thresholds_witness :
    numberConversion 2500000000000
      = some (toFixed2Q ((2500000000000 : ℚ) / 1000000000000) ++ "T") ∧
    numberConversion (1999999999/2) = none ∧
    numberConversion (1999999999999/2) = none :=
  ⟨(numberConversion_thresholds.1 2500000000000).2.2.2.2.2.1 (by norm_num) (by norm_num),
   (numberConversion_thresholds.1 (1999999999/2)).2.2.1 (by norm_num) (by norm_num),
   (numberConversion_thresholds.1 (1999999999999/2)).2.2.2.2.1 (by norm_num) (by norm_num)⟩

/-- Claim C6: getOpacity returns the fixed fallback of one tenth for
null, undefined and NaN inputs; every numeric rate is clamped to the band
from 4 to 15 and linearly interpolated from BASE_OPACITY nine tenths down
to MAX_OPACITY one tenth, so rates at or below 4 give nine tenths, rates
at or above 15 give one tenth, and every output lies between the two
endpoint opacities. -/
theorem getOpacity_clamped_interpolation :
    getOpacity none = 1/10 ∧
    (∀ u : ℚ, getOpacity (some u)
        = 9/10 + ((max 4 (min 15 u) - 4) / (15 - 4)) * (1/10 - 9/10)) ∧
    (∀ u : ℚ, u ≤ 4 → getOpacity (some u) = 9/10) ∧
    (∀ u : ℚ, 15 ≤ u → getOpacity (some u) = 1/10) ∧
    (∀ u : ℚ, 1/10 ≤ getOpacity (some u) ∧ getOpacity (some u) ≤ 9/10) := by
  have hval : ∀ u : ℚ, getOpacity (some u)
      = 9/10 + ((max 4 (min 15 u) - 4) / (15 - 4)) * (1/10 - 9/10) := fun u => rfl
  refine ⟨rfl, hval, ?_, ?_, ?_⟩
  · intro u hu
    rw [hval]
    rw [min_eq_right (hu.trans (by norm_num)), max_eq_left hu]
    norm_num
  · intro u hu
    rw [hval]
    rw [min_eq_left hu, max_eq_right (by norm_num : (4:ℚ) ≤ 15)]
    norm_num
  · intro u
    rw [hval]
    have h1 : (4:ℚ) ≤ max 4 (min 15 u) := le_max_left _ _
    have h2 : max (4:ℚ) (min 15 u) ≤ 15 := max_le (by norm_num) (min_le_left _ _)
    constructor <;> nlinarith [h1, h2]

/-- Claim C6 witness: a rate of 2 saturates at nine tenths, a rate of 20
saturates at one tenth. -/
theorem getOpacity_clamped_interpolation_witness :
    getOpacity (some 2) = 9/10 ∧ getOpacity (some 20) = 1/10 :=
  ⟨getOpacity_clamped_interpolation.2.2.1 2 (by norm_num),
   getOpacity_clamped_interpolation.2.2.2.1 20 (by norm_num)⟩

/-- Claim C7: getInflationColor is total with white for null, undefined
and NaN; negative rates give the red-weighted triple and non-negative
rates the green-weighted triple with intensity min of twenty times the
magnitude and 255; all channels always lie between 0 and 255; the map is
symmetric in magnitude; and the colors at minus 50 and plus 50 are pure
red and pure green, distinct hue families. -/
theorem getInflationColor_channels :
    getInflationColor none = Color.hex "#FFFFFF" ∧
    (∀ i : ℚ, i < 0 → getInflationColor (some i)
        = Color.rgb 255 (255 - min (|i| * 20) 255) (255 - min (|i| * 20) 255)) ∧
    (∀ i : ℚ, 0 ≤ i → getInflationColor (some i)
        = Color.rgb (255 - min (i * 20) 255) 255 (255 - min (i * 20) 255)) ∧
    (∀ i : ℚ, channelsValid (getInflationColor (some i))) ∧
    (∀ i : ℚ, 0 < i →
      getInflationColor (some (-i))
          = Color.rgb 255 (255 - min (i * 20) 255) (255 - min (i * 20) 255) ∧
      getInflationColor (some i)
          = Color.rgb (255 - min (i * 20) 255) 255 (255 - min (i * 20) 255)) ∧
    getInflationColor (some (-50)) = Color.rgb 255 0 0 ∧
    getInflationColor (some 50) = Color.rgb 0 255 0 := by
  have hneg : ∀ i : ℚ, i < 0 → getInflationColor (some i)
      = Color.rgb 255 (255 - min (|i| * 20) 255) (255 - min (|i| * 20) 255) := by
    intro i hi
    simp only [getInflationColor]
    rw [if_pos hi]
  have hpos : ∀ i : ℚ, 0 ≤ i → getInflationColor (some i)
      = Color.rgb (255 - min (i * 20) 255) 255 (255 - min (i * 20) 255) := by
    intro i hi
    simp only [getInflationColor]
    rw [if_neg (not_lt.mpr hi)]
  have hbounds : ∀ x : ℚ, 0 ≤ x → 0 ≤ 255 - min (x * 20) 255 ∧ 255 - min (x * 20) 255 ≤ 255 := by
    intro x hx
    constructor
    · have : min (x * 20) 255 ≤ 255 := min_le_right _ _
      linarith
    · have : (0:ℚ) ≤ min (x * 20) 255 := le_min (by positivity) (by norm_num)
      linarith
  refine ⟨rfl, hneg, hpos, ?_, ?_, ?_, ?_⟩
  · intro i
    by_cases hi : i < 0
    · rw [hneg i hi]
      obtain ⟨hb1, hb2⟩ := hbounds |i| (abs_nonneg i)
      exact ⟨by norm_num, by norm_num, hb1, hb2, hb1, hb2⟩
    · rw [hpos i (not_lt.mp hi)]
      obtain ⟨hb1, hb2⟩ := hbounds i (not_lt.mp hi)
      exact ⟨hb1, hb2, by norm_num, by norm_num, hb1, hb2⟩
  · intro i hi
    constructor
    · rw [hneg (-i) (neg_neg_iff_pos.mpr hi), abs_neg, abs_of_pos hi]
    · exact hpos i hi.le
  · rw [hneg (-50) (by norm_num)]
    have h1 : |(-50 : ℚ)| * 20 = 1000 := by norm_num
    rw [h1, min_eq_right (by norm_num : (255:ℚ) ≤ 1000)]
    norm_num
  · rw [hpos 50 (by norm_num)]
    have h1 : (50 : ℚ) * 20 = 1000 := by norm_num
    rw [h1, min_eq_right (by norm_num : (255:ℚ) ≤ 1000)]
    norm_num

/-- Claim C7 witness: a rate of minus 1 yields the red-weighted triple
with both lowered channels at 235. -/
theorem getInflationColor_channels_witness :
    getInflationColor (some (-1)) = Color.rgb 255 235 235 := by
  have h := getInflationColor_channels.2.1 (-1) (by norm_num)
  rw [h]
  have h1 : |(-1 : ℚ)| * 20 = 20 := by norm_num
  rw [h1, min_eq_left (by norm_num : (20:ℚ) ≤ 255)]
  norm_num

end CountryGdp

namespace CountryGdp

/-- Claim C8: the filter of the top-5 ranking view and step one of
buildHierarchy retain the same list of records on every input, and both
keep exactly the records with matching year, non-empty country name and
positive GDP, intersected with the country selection when non-empty and
the continent selection when non-empty, an empty selection imposing no
restriction. -/
theorem topK_filter_agreement (rows : List Row) (year : ℚ) (cs ks : List String) :
    top5Filter rows year cs ks = applyFilters rows year cs ks ∧
    ∀ r : Row, r ∈ applyFilters rows year cs ks ↔
      (r ∈ rows ∧ r.year.toNumber = some year ∧ r.countryName ≠ "" ∧
       (∃ g : ℚ, r.gdp.toNumber = some g ∧ 0 < g) ∧
       (cs = [] ∨ r.countryName ∈ cs) ∧ (ks = [] ∨ r.continentName ∈ ks)) :=
  ⟨rfl, fun r => mem_applyFilters_iff rows year cs ks r⟩

/-- Claim C8 witness: both filters agree on a concrete one-row input. -/
theorem topK_filter_agreement_witness :
    top5Filter [rowD] 2000 [] [] = applyFilters [rowD] 2000 [] [] :=
  (topK_filter_agreement [rowD] 2000 [] []).1

/-- Claim C9: buildHierarchy is a pure function of its four arguments;
calls on equal inputs return equal trees, with the same root name, the
same child labels and the same child values in the same order. -/
theorem buildHierarchy_deterministic (rows₁ rows₂ : List Row) (y₁ y₂ : ℚ)
    (cs₁ cs₂ ks₁ ks₂ : List String)
    (hrows : rows₁ = rows₂) (hy : y₁ = y₂) (hcs : cs₁ = cs₂) (hks : ks₁ = ks₂) :
    buildHierarchy rows₁ y₁ cs₁ ks₁ = buildHierarchy rows₂ y₂ cs₂ ks₂ ∧
    (buildHierarchy rows₁ y₁ cs₁ ks₁).name = (buildHierarchy rows₂ y₂ cs₂ ks₂).name ∧
    (buildHierarchy rows₁ y₁ cs₁ ks₁).children.map nodeName
      = (buildHierarchy rows₂ y₂ cs₂ ks₂).children.map nodeName ∧
    (buildHierarchy rows₁ y₁ cs₁ ks₁).children.map nodeValueSum
      = (buildHierarchy rows₂ y₂ cs₂ ks₂).children.map nodeValueSum := by
  subst hrows hy hcs hks
  exact ⟨rfl, rfl, rfl, rfl⟩

/-- Claim C9 witness: two calls on the same concrete input coincide. -/
theorem buildHierarchy_deterministic_witness :
    buildHierarchy [rowD] 2000 [] [] = buildHierarchy [rowD] 2000 [] [] :=
  (buildHierarchy_deterministic [rowD] [rowD] 2000 2000 [] [] [] []
    rfl rfl rfl rfl).1

/-- Claim C10: every child node of the tree carries only strictly
positive value fields; a leaf holds a positive GDP or a positive sum of
GDPs of the aggregated remainder, and every sector slice of a branch is a
positive GDP times a share strictly above the positive threshold. -/
theorem buildHierarchy_positive (rows : List Row) (year : ℚ) (cs ks : List String) :
    ∀ node ∈ (buildHierarchy rows year cs ks).children, nodePos node := by
  intro node hn
  simp only [buildHierarchy, pickedRows] at hn
  obtain ⟨r, hr, rfl⟩ := List.mem_map.mp hn
  obtain ⟨sub, hsub, hrsub⟩ := List.mem_flatten.mp hr
  obtain ⟨pr, hgrp, rfl⟩ := List.mem_map.mp hsub
  obtain ⟨hkey, hitems⟩ := groupByCont_inv hgrp
  have hpos : ∀ x ∈ pr.2, 0 < gdpNum x := fun x hx =>
    gdpNum_pos_of_rowFilter (mem_applyFilters (hitems x hx).1).2
  rcases pickedForCont_cases hrsub with hin | ⟨he, rfl⟩
  · exact nodePos_buildNode (hpos r (mem_sortByGdpDesc hin))
  · apply nodePos_buildNode
    have hne : (sortByGdpDesc pr.2).drop TOP_9 ≠ [] := by
      intro hc
      rw [hc] at he
      simp at he
    have hall : ∀ q ∈ ((sortByGdpDesc pr.2).drop TOP_9).map gdpNum, 0 < q := by
      intro q hq
      obtain ⟨x, hx, rfl⟩ := List.mem_map.mp hq
      exact hpos x (mem_sortByGdpDesc (List.drop_subset _ _ hx))
    have hsum : 0 < (((sortByGdpDesc pr.2).drop TOP_9).map gdpNum).sum :=
      List.sum_pos _ hall (by simpa using hne)
    simpa [gdpNum, othersRow, JVal.numOr0] using hsum

/-- Claim C10 witness: the node of the concrete record is a leaf of
positive value. -/
theorem buildHierarchy_positive_witness : nodePos (buildNode rowD) :=
  buildHierarchy_positive [rowD] 2000 [] [] (buildNode rowD)
    (by
      rw [children_rowD]
      exact List.mem_singleton.mpr rfl)

end CountryGdp
